import Mathlib

/-!
Verification of the validation-and-query core of the gemini-visualizer
repository (src/v3.py): the `validate_image` gate and the
`GeminiVisionAnalyzer` class (`__init__` and `analyze_image`).

External effects (PIL decoding via `Image.open`, `Image.convert`, the
`google.generativeai` client configuration, model construction and the
remote `generate_content` call) are modelled as explicit oracle
parameters returning `Except String _`, where `Except.error e` stands
for a raised exception whose `str(e)` is `e`.
-/

namespace GeminiVisualizer

/-- A decoded PIL raster image: a color mode string plus pixel
dimensions, the attributes the core consumes. -/
structure PILImage where
  mode : String
  width : Nat
  height : Nat
deriving Repr, DecidableEq

/-- Model of PIL `Image.convert(m)`: produces an image in the requested
mode with pixel dimensions unchanged (PIL converts pixel data in place
of the mode; size is preserved). -/
def PILImage.convert (img : PILImage) (m : String) : PILImage :=
  { img with mode := m }

/-- An uploaded-file handle: a declared byte length (`.size`) and the
raw byte stream. -/
structure UploadedFile where
  size : Nat
  bytes : List Nat
deriving Repr, DecidableEq

/-- Embedding of `validate_image` (src/v3.py lines 34-45). The
`open_image` oracle stands for `PIL.Image.open`: `Except.error e` is a
decode failure raised with message `e`. The body mirrors the source:
absence check, size guard, decode, then conversion of the modes
`RGBA`, `LA`, `P` to `RGB`. -/
def validate_image (open_image : UploadedFile → Except String PILImage)
    (uploaded_file : Option UploadedFile) : Bool × Option PILImage × String :=
  match uploaded_file with
  | none => (false, none, "No file uploaded.")
  | some f =>
    if f.size > 10 * 1024 * 1024 then
      (false, none, "File size exceeds 10MB.")
    else
      match open_image f with
      | Except.error e => (false, none, "Invalid image file: " ++ e)
      | Except.ok image0 =>
        let image :=
          if image0.mode ∈ (["RGBA", "LA", "P"] : List String) then
            image0.convert ("RGB")
          else image0
        (true, some image, "Image validated successfully.")

/-- A handle to a remote generative model, bound to a model
identifier. -/
structure GenerativeModel where
  model_name : String
deriving Repr, DecidableEq

/-- A response of the remote `generate_content` call; `text` is the
generated text, empty when the call produced no usable answer. -/
structure GenerateContentResponse where
  text : String
deriving Repr, DecidableEq

/-- The analyzer object: holds the model handle produced at
construction. -/
structure GeminiVisionAnalyzer where
  model : GenerativeModel
deriving Repr, DecidableEq

/-- Embedding of `GeminiVisionAnalyzer.__init__` (src/v3.py lines
13-20). `configure` stands for `genai.configure(api_key=...)` and
`generative_model` for the `genai.GenerativeModel` constructor; the
source catches any exception, logs, and re-raises it unchanged, so a
failure of either step propagates with its own message and no analyzer
value is produced. -/
def GeminiVisionAnalyzer.init
    (configure : String → Except String Unit)
    (generative_model : String → Except String GenerativeModel)
    (api_key : String) : Except String GeminiVisionAnalyzer :=
  match configure api_key with
  | Except.error e => Except.error e
  | Except.ok _ =>
    match generative_model ("gemini-1.5-flash") with
    | Except.error e => Except.error e
    | Except.ok m => Except.ok { model := m }

/-- The instruction template of `analyze_image` (src/v3.py line 24):
the f-string with the question substituted. -/
def prompt (question : String) : String :=
  "Please analyze the picture and answer the question: " ++ question

/-- Embedding of `GeminiVisionAnalyzer.analyze_image` (src/v3.py lines
22-31). `generate_content` stands for the remote call on
`[prompt, image]`, modelled as the pair; `Except.error e` is any
exception raised during the call (the Python `except` clause catches
everything in the `try` body). The Python truthiness test
`if response.text:` holds exactly when the text is non-empty. -/
def GeminiVisionAnalyzer.analyze_image
    (generate_content :
      GenerativeModel → String × PILImage → Except String GenerateContentResponse)
    (self : GeminiVisionAnalyzer) (image : PILImage) (question : String) :
    Bool × String :=
  match generate_content self.model (prompt question, image) with
  | Except.error e => (false, "Error: " ++ e)
  | Except.ok response =>
    if response.text ≠ "" then (true, response.text)
    else (false, "No response from model.")

/-- Helper: the whole success message and every failure message of
`validate_image` is a non-empty string (prepending a non-empty literal
to any string stays non-empty). -/
theorem prepend_ne_empty (s e : String) (h : s.length > 0) : s ++ e ≠ "" := by
  intro hc
  have hlen := congrArg String.length hc
  rw [String.length_append] at hlen
  simp at hlen
  omega

/-- C6: when the input is absent, `validate_image` returns the typed
triple `(false, none, "No file uploaded.")` — for every decoder, i.e.
before any inspection of a handle — rather than raising. -/
theorem no_file_uploaded (open_image : UploadedFile → Except String PILImage) :
    validate_image open_image none = (false, none, "No file uploaded.") := rfl

/-- C3: oversized inputs are rejected with the size message regardless
of byte content, and the outcome is independent of the decoder — no
decode is performed for oversized inputs. -/
theorem size_exceeded (open1 open2 : UploadedFile → Except String PILImage)
    (f : UploadedFile) (h : f.size > 10 * 1024 * 1024) :
    validate_image open1 (some f) = (false, none, "File size exceeds 10MB.")
    ∧ validate_image open1 (some f) = validate_image open2 (some f) := by
  constructor <;> simp [validate_image, h]

/-- Witness for `size_exceeded` at a concrete 10 MiB + 1 handle. -/
theorem size_exceeded_witness :
    validate_image (fun _ => Except.error ("unused"))
      (some { size := 10 * 1024 * 1024 + 1, bytes := [255] })
      = (false, none, "File size exceeds 10MB.") :=
  (size_exceeded (fun _ => Except.error ("unused"))
    (fun _ => Except.ok { mode := "RGB", width := 1, height := 1 })
    { size := 10 * 1024 * 1024 + 1, bytes := [255] } (by norm_num)).1

/-- C5: within the size budget, a decode failure with diagnostic `e`
yields `Invalid("Invalid image file: " ++ e)` and no partial image. -/
theorem invalid_image_file (open_image : UploadedFile → Except String PILImage)
    (f : UploadedFile) (e : String)
    (hsize : ¬ f.size > 10 * 1024 * 1024)
    (hdec : open_image f = Except.error e) :
    validate_image open_image (some f) = (false, none, "Invalid image file: " ++ e) := by
  simp [validate_image, hsize, hdec]

/-- Witness for `invalid_image_file` on a corrupt two-byte stream. -/
theorem invalid_image_file_witness :
    validate_image (fun _ => Except.error ("cannot identify image file"))
      (some { size := 2, bytes := [0, 1] })
      = (false, none, "Invalid image file: cannot identify image file") :=
  invalid_image_file (fun _ => Except.error ("cannot identify image file"))
    { size := 2, bytes := [0, 1] } "cannot identify image file"
    (by norm_num) rfl

/-- C10: the success flag is true exactly when the image component is
present, and the message component is non-empty in every outcome — so
every `Invalid` outcome carries `none` plus a non-empty reason, and no
image is ever returned alongside a failure flag. -/
theorem validate_image_shape (open_image : UploadedFile → Except String PILImage)
    (uf : Option UploadedFile) :
    (validate_image open_image uf).1
      = (validate_image open_image uf).2.1.isSome
    ∧ (validate_image open_image uf).2.2 ≠ "" := by
  rcases uf with _ | f
  · exact ⟨rfl, by show ("No file uploaded." : String) ≠ ""; decide⟩
  · by_cases hs : f.size > 10 * 1024 * 1024
    · rw [show validate_image open_image (some f)
          = (false, none, "File size exceeds 10MB.") by simp [validate_image, hs]]
      exact ⟨rfl, by show ("File size exceeds 10MB." : String) ≠ ""; decide⟩
    · rcases hdec : open_image f with e | img
      · rw [show validate_image open_image (some f)
            = (false, none, "Invalid image file: " ++ e) by simp [validate_image, hs, hdec]]
        exact ⟨rfl, prepend_ne_empty ("Invalid image file: ") e (by decide)⟩
      · rw [show validate_image open_image (some f)
            = (true, some (if img.mode ∈ (["RGBA", "LA", "P"] : List String) then
                img.convert ("RGB") else img), "Image validated successfully.")
            by simp [validate_image, hs, hdec]]
        exact ⟨rfl, by show ("Image validated successfully." : String) ≠ ""; decide⟩

/-- Witness for `validate_image_shape` at two concrete inputs: an
absent handle gives a flag matching image absence and a non-empty
message, and a successful decode gives a flag matching image presence
and a non-empty message. -/
theorem validate_image_shape_witness :
    ((validate_image (fun _ => Except.ok { mode := "RGB", width := 1, height := 1 })
        none).1
      = (validate_image (fun _ => Except.ok { mode := "RGB", width := 1, height := 1 })
        none).2.1.isSome
    ∧ (validate_image (fun _ => Except.ok { mode := "RGB", width := 1, height := 1 })
        none).2.2 ≠ "")
    ∧ ((validate_image (fun _ => Except.ok { mode := "RGB", width := 1, height := 1 })
        (some { size := 3, bytes := [1, 2, 3] })).1
      = (validate_image (fun _ => Except.ok { mode := "RGB", width := 1, height := 1 })
        (some { size := 3, bytes := [1, 2, 3] })).2.1.isSome
    ∧ (validate_image (fun _ => Except.ok { mode := "RGB", width := 1, height := 1 })
        (some { size := 3, bytes := [1, 2, 3] })).2.2 ≠ "") :=
  ⟨validate_image_shape (fun _ => Except.ok { mode := "RGB", width := 1, height := 1 })
      none,
   validate_image_shape (fun _ => Except.ok { mode := "RGB", width := 1, height := 1 })
      (some { size := 3, bytes := [1, 2, 3] })⟩

/-- C1 counterexample: a grayscale decode (PIL mode "L", as produced
for a grayscale JPEG or PNG) passes through `validate_image` with its
mode unchanged — the returned image's mode is "L", not the three-channel
canonical mode "RGB", refuting the claim that every successfully decoded
upload comes back in three-channel mode. -/
theorem grayscale_passthrough_counterexample :
    (validate_image (fun _ => Except.ok { mode := "L", width := 5, height := 5 })
        (some { size := 100, bytes := [1] })).2.1
      = some { mode := "L", width := 5, height := 5 }
    ∧ ("L" : String) ≠ "RGB" := by
  constructor
  · rfl
  · decide

/-- C1 (amended): within the size budget, a decode whose mode is one of
"RGBA", "LA", "P" — the alpha-bearing and palette modes the source
converts — is returned converted to "RGB" with pixel dimensions
unchanged; a decode in any other mode passes through with image (and
mode) unchanged; and in either case the returned image's mode is never
one of "RGBA", "LA", "P". -/
theorem alpha_palette_converted (open_image : UploadedFile → Except String PILImage)
    (f : UploadedFile) (img : PILImage)
    (hsize : ¬ f.size > 10 * 1024 * 1024)
    (hdec : open_image f = Except.ok img) :
    (img.mode ∈ (["RGBA", "LA", "P"] : List String) →
      validate_image open_image (some f)
        = (true, some (img.convert ("RGB")), "Image validated successfully.")
      ∧ (img.convert ("RGB")).mode = "RGB"
      ∧ (img.convert ("RGB")).width = img.width
      ∧ (img.convert ("RGB")).height = img.height)
    ∧ (img.mode ∉ (["RGBA", "LA", "P"] : List String) →
      validate_image open_image (some f)
        = (true, some img, "Image validated successfully."))
    ∧ ∀ i : PILImage, (validate_image open_image (some f)).2.1 = some i →
        i.mode ∉ (["RGBA", "LA", "P"] : List String) := by
  by_cases hmode : img.mode ∈ (["RGBA", "LA", "P"] : List String)
  · have hval : validate_image open_image (some f)
        = (true, some (img.convert ("RGB")), "Image validated successfully.") := by
      simp [validate_image, hsize, hdec, hmode]
    refine ⟨fun _ => ⟨hval, rfl, rfl, rfl⟩, fun hn => absurd hmode hn, ?_⟩
    intro i hi
    rw [hval] at hi
    simp at hi
    rw [← hi]
    show ("RGB" : String) ∉ (["RGBA", "LA", "P"] : List String)
    decide
  · have hval : validate_image open_image (some f)
        = (true, some img, "Image validated successfully.") := by
      simp [validate_image, hsize, hdec, hmode]
    refine ⟨fun hm => absurd hm hmode, fun _ => hval, ?_⟩
    intro i hi
    rw [hval] at hi
    simp at hi
    rw [← hi]
    exact hmode

/-- Witness for `alpha_palette_converted`: a 2x3 RGBA decode within
budget is returned as the same image in mode "RGB", and a grayscale
("L") decode within budget passes through unchanged. -/
theorem alpha_palette_converted_witness :
    validate_image (fun _ => Except.ok { mode := "RGBA", width := 2, height := 3 })
      (some { size := 2048, bytes := [137, 80] })
      = (true, some { mode := "RGB", width := 2, height := 3 },
          "Image validated successfully.")
    ∧ validate_image (fun _ => Except.ok { mode := "L", width := 2, height := 3 })
      (some { size := 2048, bytes := [137, 80] })
      = (true, some { mode := "L", width := 2, height := 3 },
          "Image validated successfully.") :=
  ⟨((alpha_palette_converted (fun _ => Except.ok { mode := "RGBA", width := 2, height := 3 })
      { size := 2048, bytes := [137, 80] } { mode := "RGBA", width := 2, height := 3 }
      (by norm_num) rfl).1 (by decide)).1,
   (alpha_palette_converted (fun _ => Except.ok { mode := "L", width := 2, height := 3 })
      { size := 2048, bytes := [137, 80] } { mode := "L", width := 2, height := 3 }
      (by norm_num) rfl).2.1 (by decide)⟩

/-- C7: a decode already in mode "RGB" is returned unchanged (no
conversion), and validation is idempotent on its own output: any upload
within budget that decodes to that same returned image validates to the
very same triple. -/
theorem rgb_passthrough_idempotent
    (open1 open2 : UploadedFile → Except String PILImage)
    (f g : UploadedFile) (img : PILImage)
    (hsize : ¬ f.size > 10 * 1024 * 1024)
    (hdec : open1 f = Except.ok img)
    (hmode : img.mode = "RGB") :
    validate_image open1 (some f) = (true, some img, "Image validated successfully.")
    ∧ (¬ g.size > 10 * 1024 * 1024 → open2 g = Except.ok img →
        validate_image open2 (some g) = validate_image open1 (some f)) := by
  have hnot : img.mode ∉ (["RGBA", "LA", "P"] : List String) := by
    rw [hmode]; decide
  have hval : validate_image open1 (some f)
      = (true, some img, "Image validated successfully.") := by
    simp [validate_image, hsize, hdec, hnot]
  refine ⟨hval, fun hg hdec2 => ?_⟩
  rw [hval]
  simp [validate_image, hg, hdec2, hnot]

/-- Witness for `rgb_passthrough_idempotent`: a concrete RGB decode
passes through, and re-validating its output returns the same triple. -/
theorem rgb_passthrough_idempotent_witness :
    validate_image (fun _ => Except.ok { mode := "RGB", width := 4, height := 4 })
        (some { size := 10, bytes := [7] })
      = (true, some { mode := "RGB", width := 4, height := 4 },
          "Image validated successfully.")
    ∧ validate_image (fun _ => Except.ok { mode := "RGB", width := 4, height := 4 })
        (some { size := 11, bytes := [8] })
      = validate_image (fun _ => Except.ok { mode := "RGB", width := 4, height := 4 })
        (some { size := 10, bytes := [7] }) := by
  have h := rgb_passthrough_idempotent
    (fun _ => Except.ok { mode := "RGB", width := 4, height := 4 })
    (fun _ => Except.ok { mode := "RGB", width := 4, height := 4 })
    { size := 10, bytes := [7] } { size := 11, bytes := [8] }
    { mode := "RGB", width := 4, height := 4 }
    (by norm_num) rfl rfl
  exact ⟨h.1, h.2 (by norm_num) rfl⟩

/-- C2: any error `e` raised by the remote call inside `analyze_image`
is caught and turned into `(false, "Error: " ++ e)`, and the returned
diagnostic string is non-empty. -/
theorem analyze_image_error
    (generate_content :
      GenerativeModel → String × PILImage → Except String GenerateContentResponse)
    (a : GeminiVisionAnalyzer) (image : PILImage) (question e : String)
    (h : generate_content a.model (prompt question, image) = Except.error e) :
    a.analyze_image generate_content image question = (false, "Error: " ++ e)
    ∧ "Error: " ++ e ≠ "" := by
  constructor
  · simp [GeminiVisionAnalyzer.analyze_image, h]
  · exact prepend_ne_empty ("Error: ") e (by decide)

/-- Witness for `analyze_image_error` on a simulated network failure. -/
theorem analyze_image_error_witness :
    GeminiVisionAnalyzer.analyze_image (fun _ _ => Except.error ("connection reset"))
      { model := { model_name := "gemini-1.5-flash" } }
      { mode := "RGB", width := 1, height := 1 } "什么?"
      = (false, "Error: connection reset") :=
  (analyze_image_error (fun _ _ => Except.error ("connection reset"))
    { model := { model_name := "gemini-1.5-flash" } }
    { mode := "RGB", width := 1, height := 1 } "什么?" "connection reset" rfl).1

/-- C4: when the remote call returns a response without error,
`analyze_image` yields `(true, text)` exactly when the generated text
is non-empty, yields `(false, "No response from model.")` when the text
is empty, and a `true` outcome always carries a non-empty string. -/
theorem analyze_image_response
    (generate_content :
      GenerativeModel → String × PILImage → Except String GenerateContentResponse)
    (a : GeminiVisionAnalyzer) (image : PILImage) (question : String)
    (resp : GenerateContentResponse)
    (h : generate_content a.model (prompt question, image) = Except.ok resp) :
    (resp.text ≠ "" → a.analyze_image generate_content image question = (true, resp.text))
    ∧ (resp.text = "" →
        a.analyze_image generate_content image question = (false, "No response from model."))
    ∧ ∀ t : String, a.analyze_image generate_content image question = (true, t) → t ≠ "" := by
  refine ⟨fun hne => ?_, fun heq => ?_, fun t ht => ?_⟩
  · simp [GeminiVisionAnalyzer.analyze_image, h, hne]
  · simp [GeminiVisionAnalyzer.analyze_image, h, heq]
  · by_cases hne : resp.text = ""
    · simp [GeminiVisionAnalyzer.analyze_image, h, hne] at ht
    · simp [GeminiVisionAnalyzer.analyze_image, h, hne] at ht
      rw [← ht]
      exact hne

/-- Witness for `analyze_image_response`: a concrete answer text is
returned as a success, and it is non-empty. -/
theorem analyze_image_response_witness :
    GeminiVisionAnalyzer.analyze_image
      (fun _ _ => Except.ok { text := "A red bicycle." })
      { model := { model_name := "gemini-1.5-flash" } }
      { mode := "RGB", width := 1, height := 1 } "What is in this picture?"
      = (true, "A red bicycle.")
    ∧ ("A red bicycle." : String) ≠ "" := by
  have h := analyze_image_response (fun _ _ => Except.ok { text := "A red bicycle." })
    { model := { model_name := "gemini-1.5-flash" } }
    { mode := "RGB", width := 1, height := 1 } "What is in this picture?"
    { text := "A red bicycle." } rfl
  have h1 := h.1 (by decide)
  exact ⟨h1, h.2.2 "A red bicycle." h1⟩

/-- C8: the request `analyze_image` submits to the remote client is
exactly the fixed instruction template with the question substituted,
paired with the image: the prompt equals the template applied to the
question (also when the question is empty or whitespace-only — no
non-emptiness is enforced), and the outcome depends on the remote
oracle only through its value at that one request. -/
theorem analyze_image_request
    (gen1 gen2 :
      GenerativeModel → String × PILImage → Except String GenerateContentResponse)
    (a : GeminiVisionAnalyzer) (image : PILImage) (question : String)
    (h : gen1 a.model (prompt question, image) = gen2 a.model (prompt question, image)) :
    prompt question = "Please analyze the picture and answer the question: " ++ question
    ∧ a.analyze_image gen1 image question = a.analyze_image gen2 image question := by
  exact ⟨rfl, by simp [GeminiVisionAnalyzer.analyze_image, h]⟩

/-- Witness for `analyze_image_request` at the empty question: the
prompt is the bare template and two oracles agreeing at the templated
request give the same outcome. -/
theorem analyze_image_request_witness :
    prompt "" = "Please analyze the picture and answer the question: "
    ∧ GeminiVisionAnalyzer.analyze_image (fun _ _ => Except.ok { text := "ok" })
        { model := { model_name := "gemini-1.5-flash" } }
        { mode := "RGB", width := 1, height := 1 } ""
      = GeminiVisionAnalyzer.analyze_image (fun _ _ => Except.ok { text := "ok" })
        { model := { model_name := "gemini-1.5-flash" } }
        { mode := "RGB", width := 1, height := 1 } "" :=
  analyze_image_request (fun _ _ => Except.ok { text := "ok" })
    (fun _ _ => Except.ok { text := "ok" })
    { model := { model_name := "gemini-1.5-flash" } }
    { mode := "RGB", width := 1, height := 1 } "" rfl

/-- C9: construction is atomic. If `genai.configure` fails with `e`,
`init` fails with `e` and no analyzer value exists; if configuration
succeeds and model construction fails with `e`, `init` fails with `e`;
when both succeed the result is an analyzer holding exactly the model
built from the fixed identifier "gemini-1.5-flash". -/
theorem init_atomic (configure : String → Except String Unit)
    (generative_model : String → Except String GenerativeModel) (api_key : String) :
    (∀ e : String, configure api_key = Except.error e →
      GeminiVisionAnalyzer.init configure generative_model api_key = Except.error e)
    ∧ (∀ e : String, configure api_key = Except.ok () →
        generative_model ("gemini-1.5-flash") = Except.error e →
        GeminiVisionAnalyzer.init configure generative_model api_key = Except.error e)
    ∧ ∀ m : GenerativeModel, configure api_key = Except.ok () →
        generative_model ("gemini-1.5-flash") = Except.ok m →
        GeminiVisionAnalyzer.init configure generative_model api_key
          = Except.ok { model := m } := by
  refine ⟨fun e he => ?_, fun e hc hm => ?_, fun m hc hm => ?_⟩
  · simp [GeminiVisionAnalyzer.init, he]
  · simp [GeminiVisionAnalyzer.init, hc, hm]
  · simp [GeminiVisionAnalyzer.init, hc, hm]

/-- Witness for `init_atomic`: a failing configuration propagates its
diagnostic, and a fully successful construction yields the analyzer
bound to "gemini-1.5-flash". -/
theorem init_atomic_witness :
    GeminiVisionAnalyzer.init (fun _ => Except.error ("invalid api key"))
        (fun s => Except.ok { model_name := s }) "bad-key"
      = Except.error "invalid api key"
    ∧ GeminiVisionAnalyzer.init (fun _ => Except.ok ())
        (fun s => Except.ok { model_name := s }) "good-key"
      = Except.ok { model := { model_name := "gemini-1.5-flash" } } := by
  constructor
  · exact (init_atomic (fun _ => Except.error ("invalid api key"))
      (fun s => Except.ok { model_name := s }) "bad-key").1 "invalid api key" rfl
  · exact (init_atomic (fun _ => Except.ok ())
      (fun s => Except.ok { model_name := s }) "good-key").2.2
      { model_name := "gemini-1.5-flash" } rfl rfl

end GeminiVisualizer
